import Mathlib

/-!
Verification development for the SaveFrame Figma plugin (`src/code.ts`).

The plugin keeps a snapshot (`PluginData`) of preset collections in client
storage and mutates it through a message handler (`figma.ui.onmessage`).
This file shallowly embeds the snapshot data model, the message handlers
that write the snapshot, and the `syncWithSupabase` push, and proves the
behavioural properties claimed in the specification.  Host side effects
(UI messages, notifications, remote requests) are modelled as explicit
event values returned next to the new snapshot; `Date.now()` is passed in
as an explicit `now` argument.
-/

namespace SaveFrame

/-- Stand-in for the host `Paint` objects; presets only carry them verbatim. -/
abbrev Paint := String

/-- Stand-in for the host `Effect` objects; presets only carry them verbatim. -/
abbrev FrameEffect := String

/-- `cornerRadius` is `number | number[]` in the source. -/
inductive CornerRadius where
  | num (value : Int)
  | arr (values : List Int)
deriving DecidableEq, Repr

/-- A stored preset (`interface FramePreset` in `code.ts`): required core
fields plus the optional styling bag. -/
structure FramePreset where
  id : String
  name : String
  width : Int
  height : Int
  isFavorite : Bool
  dateCreated : Int
  fills : Option (List Paint)
  strokes : Option (List Paint)
  strokeWeight : Option Int
  cornerRadius : Option CornerRadius
  effects : Option (List FrameEffect)
  layoutMode : Option String
  primaryAxisSizingMode : Option String
  counterAxisSizingMode : Option String
  primaryAxisAlignItems : Option String
  counterAxisAlignItems : Option String
  paddingLeft : Option Int
  paddingRight : Option Int
  paddingTop : Option Int
  paddingBottom : Option Int
  itemSpacing : Option Int
  clipsContent : Option Bool
deriving DecidableEq, Repr

/-- `interface Collection` in `code.ts`; `isBuiltIn` is an optional field. -/
structure Collection where
  id : String
  name : String
  presets : List FramePreset
  isBuiltIn : Option Bool
deriving DecidableEq, Repr

/-- `interface PluginData` in `code.ts`: the persisted snapshot. -/
structure PluginData where
  collections : List Collection
  activeCollectionId : Option String
  lastSyncedAt : Option Int
deriving DecidableEq, Repr

/-- An incoming preset payload of `save-multiple-presets` (`msg.presets`
elements).  The handler treats every field defensively, so optional
presence is modelled with `Option`; the incoming `id` is never read by the
handler and is therefore not part of this record. -/
structure RawPreset where
  name : Option String
  width : Int
  height : Int
  isFavorite : Option Bool
  dateCreated : Option Int
  fills : Option (List Paint)
  strokes : Option (List Paint)
  strokeWeight : Option Int
  cornerRadius : Option CornerRadius
  effects : Option (List FrameEffect)
  layoutMode : Option String
  primaryAxisSizingMode : Option String
  counterAxisSizingMode : Option String
  primaryAxisAlignItems : Option String
  counterAxisAlignItems : Option String
  paddingLeft : Option Int
  paddingRight : Option Int
  paddingTop : Option Int
  paddingBottom : Option Int
  itemSpacing : Option Int
  clipsContent : Option Bool
deriving DecidableEq, Repr

/-- Observable UI-side effects of a handler (`figma.notify` and
`figma.ui.postMessage` calls that the claims mention). -/
inductive UiOut where
  | notify (message : String) (isError : Bool)
  | postUpdate
  | postNameExists (name : String)
deriving DecidableEq, Repr

/-- One row of the remote `collections` table as built by `syncWithSupabase`. -/
structure CollectionRow where
  id : String
  name : String
  presets : List FramePreset
  is_built_in : Bool
  last_synced_at : Int
deriving DecidableEq, Repr

/-- A remote request issued by `syncWithSupabase`, in issue order. -/
inductive RemoteOp where
  | deleteWhereIdNotIn (ids : List String)
  | upsertRows (rows : List CollectionRow)
deriving DecidableEq, Repr

/-- Result of `syncWithSupabase`: returned boolean, the snapshot as left in
memory, the remote requests issued, and whether `savePluginData` ran. -/
structure SyncResult where
  ok : Bool
  data : PluginData
  remoteOps : List RemoteOp
  persisted : Bool
deriving DecidableEq, Repr

/-- `BUILT_IN_COLLECTION_IDS` from `code.ts`: ids the sync delete excludes. -/
def BUILT_IN_COLLECTION_IDS : List String :=
  ["instagram", "facebook", "twitter", "youtube", "figma"]

/-- A seeded preset of `defaultCollections`: only the core fields are set
(`dateCreated: Date.now()` becomes the `now` argument). -/
def seedPreset (id name : String) (width height : Int) (now : Int) : FramePreset :=
  ⟨id, name, width, height, false, now, none, none, none, none, none, none,
   none, none, none, none, none, none, none, none, none, none⟩

/-- `defaultCollections` from `code.ts`: the four seeded built-in collections. -/
def defaultCollections (now : Int) : List Collection :=
  [⟨"instagram", "Instagram",
     [seedPreset "instagram-post" "Post" 1080 1080 now,
      seedPreset "instagram-story" "Story" 1080 1920 now], some true⟩,
   ⟨"twitter", "Twitter",
     [seedPreset "twitter-post" "Post" 1200 675 now,
      seedPreset "twitter-header" "Header" 1500 500 now], some true⟩,
   ⟨"facebook", "Facebook",
     [seedPreset "facebook-post" "Post" 1200 630 now,
      seedPreset "facebook-cover" "Cover" 820 312 now], some true⟩,
   ⟨"print", "Print Dimensions",
     [seedPreset "print-a4" "A4" 2480 3508 now,
      seedPreset "print-letter" "Letter" 2550 3300 now], some true⟩]

/-- The snapshot seeded by `initializePlugin` when no stored data exists. -/
def defaultPluginData (now : Int) : PluginData :=
  ⟨defaultCollections now, some "instagram", none⟩

/-- Replace the first element satisfying `p` by its image under `f` (the
functional reading of `findIndex` followed by an in-place mutation). -/
def updateFirst (p : α → Bool) (f : α → α) : List α → List α
  | [] => []
  | x :: xs => if p x then f x :: xs else x :: updateFirst p f xs

/-- Remove the first element satisfying `p` (the functional reading of
`findIndex` followed by `splice(i, 1)` / `delete map[key]`). -/
def eraseFirst (p : α → Bool) : List α → List α
  | [] => []
  | x :: xs => if p x then xs else x :: eraseFirst p xs

/-- Whether some collection in the list has the given id. -/
def hasId (l : List Collection) (i : String) : Bool :=
  l.any (fun c => c.id == i)

/-- Map with the element index, as the source's `Array.prototype.map`
callback receives it. -/
def mapWithIndex (f : Nat → α → β) : Nat → List α → List β
  | _, [] => []
  | i, x :: xs => f i x :: mapWithIndex f (i + 1) xs

/-- JavaScript `s || dflt` on strings: the default replaces a missing or
empty (falsy) string. -/
def strOr (s : Option String) (dflt : String) : String :=
  match s with
  | some v => if v = "" then dflt else v
  | none => dflt

/-- The defensive copy built for each element of `msg.presets` in the
`save-multiple-presets` handler (lines 1195-1241 of `code.ts`).  `now` is
`Date.now()` and `index` the position in `msg.presets`.  Notably
`clipsContent` is `Boolean(preset.clipsContent || true)`, `dateCreated`
falls back to `now` also when the incoming value is `0` (falsy), and the
`JSON` round trips are identity on values. -/
def normalizePreset (now : Int) (index : Nat) (preset : RawPreset) : FramePreset :=
  { id := "preset-" ++ toString now ++ "-" ++ toString index
    name := strOr preset.name ""
    width := preset.width
    height := preset.height
    isFavorite := preset.isFavorite.getD false
    dateCreated :=
      match preset.dateCreated with
      | some t => if t = 0 then now else t
      | none => now
    fills := some (preset.fills.getD [])
    strokes := some (preset.strokes.getD [])
    strokeWeight := some (preset.strokeWeight.getD 0)
    cornerRadius := some
      (match preset.cornerRadius with
       | some (.arr vs) => .arr vs
       | some (.num n) => .num n
       | none => .num 0)
    effects := some (preset.effects.getD [])
    layoutMode := some (strOr preset.layoutMode "NONE")
    primaryAxisSizingMode := some (strOr preset.primaryAxisSizingMode "FIXED")
    counterAxisSizingMode := some (strOr preset.counterAxisSizingMode "FIXED")
    primaryAxisAlignItems := some (strOr preset.primaryAxisAlignItems "MIN")
    counterAxisAlignItems := some (strOr preset.counterAxisAlignItems "MIN")
    paddingLeft := some (preset.paddingLeft.getD 0)
    paddingRight := some (preset.paddingRight.getD 0)
    paddingTop := some (preset.paddingTop.getD 0)
    paddingBottom := some (preset.paddingBottom.getD 0)
    itemSpacing := some (preset.itemSpacing.getD 0)
    clipsContent := some true }

/-- The `save-preset` handler (lines 1139-1171): find the target collection,
refuse built-ins with an error notification, otherwise push `msg.preset`. -/
def handleSavePreset (collectionId : String) (preset : FramePreset)
    (d : PluginData) : PluginData × List UiOut :=
  match d.collections.find? (fun c => c.id == collectionId) with
  | none => (d, [])
  | some c =>
    if c.isBuiltIn.getD false then
      (d, [.notify "Cannot add presets to built-in collections" true])
    else
      let cs := updateFirst (fun x => x.id == collectionId)
        (fun x => { x with presets := x.presets ++ [preset] }) d.collections
      ({ d with collections := cs },
       [.notify ("Preset \"" ++ preset.name ++ "\" saved to collection \"" ++ c.name ++ "\"") false,
        .postUpdate])

/-- The `save-multiple-presets` handler (lines 1173-1271): find the target
collection, refuse built-ins with an error notification, otherwise append
one defensively normalised copy per element of a non-empty `msg.presets`
array (`none` models a missing or non-array payload). -/
def handleSaveMultiplePresets (now : Int) (collectionId : String)
    (presets : Option (List RawPreset)) (d : PluginData) : PluginData × List UiOut :=
  match d.collections.find? (fun c => c.id == collectionId) with
  | none => (d, [])
  | some c =>
    if c.isBuiltIn.getD false then
      (d, [.notify "Cannot add presets to built-in collections" true])
    else
      match presets with
      | none => (d, [])
      | some ps =>
        if ps.isEmpty then (d, [])
        else
          let cs := updateFirst (fun x => x.id == collectionId)
            (fun x => { x with presets :=
              x.presets ++ mapWithIndex (fun i p => normalizePreset now i p) 0 ps })
            d.collections
          ({ d with collections := cs },
           [.notify ("Saved presets to \"" ++ c.name ++ "\"") false, .postUpdate])

/-- Flip the `isFavorite` flag of the first preset with the given id. -/
def togglePresetFavorite (presetId : String) (ps : List FramePreset) : List FramePreset :=
  updateFirst (fun p => p.id == presetId) (fun p => { p with isFavorite := !p.isFavorite }) ps

/-- Apply `togglePresetFavorite` inside one collection. -/
def toggleCollectionPreset (presetId : String) (x : Collection) : Collection :=
  { x with presets := togglePresetFavorite presetId x.presets }

/-- The `toggle-favorite` handler (lines 1360-1391): if the collection and,
inside it, the preset are found, flip the preset's `isFavorite` flag. -/
def handleToggleFavorite (collectionId presetId : String)
    (d : PluginData) : PluginData × List UiOut :=
  match d.collections.find? (fun c => c.id == collectionId) with
  | none => (d, [])
  | some c =>
    match c.presets.find? (fun p => p.id == presetId) with
    | none => (d, [])
    | some _ =>
      let cs := updateFirst (fun x => x.id == collectionId)
        (toggleCollectionPreset presetId) d.collections
      ({ d with collections := cs }, [.postUpdate])

/-- The `set-active-collection` handler (lines 1393-1405): overwrite the
active pointer with `msg.collectionId`, with no existence check. -/
def handleSetActiveCollection (collectionId : Option String)
    (d : PluginData) : PluginData × List UiOut :=
  ({ d with activeCollectionId := collectionId }, [.postUpdate])

/-- Executable model of `String.prototype.toLowerCase`: the per-character
lower-case map (structural recursion so that concrete instances evaluate). -/
def lowerStr (s : String) : String := ⟨s.data.map Char.toLower⟩

/-- The id generated for a collection created at time `now`
(`collection-${Date.now()}`). -/
def newCollectionId (now : Int) : String :=
  "collection-" ++ toString now

/-- The `create-collection` handler (lines 1407-1448): refuse a
case-insensitively duplicate name with a `collection-name-exists` message,
otherwise append a fresh empty collection and make it active. -/
def handleCreateCollection (now : Int) (nm : String)
    (d : PluginData) : PluginData × List UiOut :=
  if d.collections.any (fun c => lowerStr c.name == lowerStr nm) then
    (d, [.postNameExists nm])
  else
    ({ d with
        collections := d.collections ++ [⟨newCollectionId now, nm, [], none⟩],
        activeCollectionId := some (newCollectionId now) },
     [.postUpdate, .notify ("Collection \"" ++ nm ++ "\" created") false])

/-- The `delete-collection` handler (lines 1450-1483): remove the collection
at the first matching index (no built-in check), and when it was the active
one repoint the active pointer to the new first collection, or `none`. -/
def handleDeleteCollection (collectionId : String)
    (d : PluginData) : PluginData × List UiOut :=
  if hasId d.collections collectionId then
    let cs := eraseFirst (fun c => c.id == collectionId) d.collections
    let newActive :=
      if d.activeCollectionId = some collectionId then
        match cs with
        | [] => none
        | c :: _ => some c.id
      else d.activeCollectionId
    (⟨cs, newActive, d.lastSyncedAt⟩,
     [.postUpdate, .notify "Collection deleted" false])
  else (d, [])

/-- The `delete-preset` handler (lines 1485-1517): refuse built-ins with an
error notification, otherwise filter the preset out of the collection. -/
def handleDeletePreset (collectionId presetId : String)
    (d : PluginData) : PluginData × List UiOut :=
  match d.collections.find? (fun c => c.id == collectionId) with
  | none => (d, [])
  | some c =>
    if c.isBuiltIn.getD false then
      (d, [.notify "Cannot delete presets from built-in collections" true])
    else
      let cs := updateFirst (fun x => x.id == collectionId)
        (fun x => { x with presets := x.presets.filter (fun p => !(p.id == presetId)) })
        d.collections
      ({ d with collections := cs }, [.postUpdate])

/-- The assignment `collectionsMap[collection.id] = collection`: replace the
value if the key is present (keeping its position), else append the entry. -/
def mapInsert (m : List Collection) (c : Collection) : List Collection :=
  if hasId m c.id then
    m.map (fun x => if x.id == c.id then c else x)
  else m ++ [c]

/-- Building `collectionsMap` from the snapshot's collections, modelling the
object as an insertion-ordered association list keyed by `id`. -/
def buildMap (cs : List Collection) : List Collection :=
  cs.foldl mapInsert []

/-- One iteration of the `for (const id of msg.collectionIds)` loop: if the
map still holds the id, move that collection to the output. -/
def reorderStep (s : List Collection × List Collection) (i : String) :
    List Collection × List Collection :=
  match s.2.find? (fun c => c.id == i) with
  | some c => (s.1 ++ [c], eraseFirst (fun c => c.id == i) s.2)
  | none => s

/-- The reordering computation of the `reorder-collections` handler: phase
one walks `collectionIds`, phase two appends the collections remaining in
the map in their stored (insertion) order. -/
def reorderCore (ids : List String) (cs : List Collection) : List Collection :=
  let s := ids.foldl reorderStep ([], buildMap cs)
  s.1 ++ s.2

/-- The `reorder-collections` handler (lines 1542-1607): a missing,
non-array (`none`) or empty `msg.collectionIds` aborts without change. -/
def handleReorderCollections (collectionIds : Option (List String))
    (d : PluginData) : PluginData × List UiOut :=
  match collectionIds with
  | none => (d, [])
  | some ids =>
    if ids.isEmpty then (d, [])
    else
      ({ d with collections := reorderCore ids d.collections },
       [.postUpdate, .notify "Collections reordered successfully" false])

/-- The `save-imported-collection` handler (lines 1609-1637): replace the
collection with the same id, or append the new one. -/
def handleSaveImportedCollection (c : Collection)
    (d : PluginData) : PluginData × List UiOut :=
  if hasId d.collections c.id then
    ({ d with collections := updateFirst (fun x => x.id == c.id) (fun _ => c) d.collections },
     [.notify ("Collection \"" ++ c.name ++ "\" imported and saved locally") false])
  else
    ({ d with collections := d.collections ++ [c] },
     [.notify ("Collection \"" ++ c.name ++ "\" imported and saved locally") false])

/-- The remote row built for one collection by the sync upsert
(`is_built_in: collection.isBuiltIn || false`). -/
def collectionRow (now : Int) (c : Collection) : CollectionRow :=
  ⟨c.id, c.name, c.presets, c.isBuiltIn.getD false, now⟩

/-- `syncWithSupabase` (lines 158-206 / 904-952): issue the delete with the
`not id in BUILT_IN_COLLECTION_IDS` filter; on its success issue the upsert
of every local collection; on success of both set `lastSyncedAt` and persist
the snapshot.  The two error flags say whether the corresponding awaited
request reports an error; the `try`/`catch` turns either error into a
`false` return, so the function never throws past its boundary. -/
def syncWithSupabase (now : Int) (deleteError upsertError : Bool)
    (data : PluginData) : SyncResult :=
  if deleteError then
    ⟨false, data, [.deleteWhereIdNotIn BUILT_IN_COLLECTION_IDS], false⟩
  else if upsertError then
    ⟨false, data,
     [.deleteWhereIdNotIn BUILT_IN_COLLECTION_IDS,
      .upsertRows (data.collections.map (collectionRow now))], false⟩
  else
    ⟨true, { data with lastSyncedAt := some now },
     [.deleteWhereIdNotIn BUILT_IN_COLLECTION_IDS,
      .upsertRows (data.collections.map (collectionRow now))], true⟩

/-- Whether the sync delete request targets a remote row with the given id:
`.not("id", "in", excluded)` deletes exactly the rows whose id is not in
the exclusion list. -/
def supabaseDeleteTargets (excluded : List String) (rowId : String) : Bool :=
  !(excluded.contains rowId)

/-- The snapshot-mutating inbound messages of `figma.ui.onmessage`.
`passive` stands for every remaining message type (`create-preset`,
`use-preset`, `apply-preset`, `import-from-supabase`, `resize-ui`, `close`,
`ui-ready`, `save-supabase-config`, `get-supabase-config`,
`selection-data`), none of which writes an existing snapshot. -/
inductive Msg where
  | savePreset (collectionId : String) (preset : FramePreset)
  | saveMultiplePresets (collectionId : String) (presets : Option (List RawPreset))
  | toggleFavorite (collectionId : String) (presetId : String)
  | setActiveCollection (collectionId : Option String)
  | createCollection (name : String)
  | deleteCollection (collectionId : String)
  | deletePreset (collectionId : String) (presetId : String)
  | reorderCollections (collectionIds : Option (List String))
  | saveImportedCollection (collection : Collection)
  | syncToSupabase (deleteError : Bool) (upsertError : Bool)
  | passive

/-- One step of the message handler on the stored snapshot. -/
def applyMessage (now : Int) (m : Msg) (d : PluginData) : PluginData × List UiOut :=
  match m with
  | .savePreset cid preset => handleSavePreset cid preset d
  | .saveMultiplePresets cid presets => handleSaveMultiplePresets now cid presets d
  | .toggleFavorite cid pid => handleToggleFavorite cid pid d
  | .setActiveCollection cid => handleSetActiveCollection cid d
  | .createCollection nm => handleCreateCollection now nm d
  | .deleteCollection cid => handleDeleteCollection cid d
  | .deletePreset cid pid => handleDeletePreset cid pid d
  | .reorderCollections ids => handleReorderCollections ids d
  | .saveImportedCollection c => handleSaveImportedCollection c d
  | .syncToSupabase derr uerr =>
    let r := syncWithSupabase now derr uerr d
    (r.data,
     if r.ok then
       [.notify "Successfully synced all collections to Supabase" false,
        .notify "Syncing to Supabase completed" false]
     else
       [.notify "Failed to sync collections to Supabase. See console for details." true,
        .notify "Syncing to Supabase failed" false])
  | .passive => (d, [])

/-- The data-model invariant of §3 of the specification: a non-null
`activeCollectionId` references an existing collection. -/
def activeOk (d : PluginData) : Bool :=
  match d.activeCollectionId with
  | none => true
  | some i => hasId d.collections i

/-- Side condition under which a message keeps `activeOk`: every message
qualifies except `set-active-collection` with an id of no existing
collection. -/
def msgKeepsActive (m : Msg) (d : PluginData) : Bool :=
  match m with
  | .setActiveCollection none => true
  | .setActiveCollection (some i) => hasId d.collections i
  | _ => true

/-- Formalisation of the specification's wording for the explicit part of
`reorderCollections(orderedIds)`: the collections whose ids appear in
`orderedIds`, in that order (each collection taken at the first occurrence
of its id). -/
def specSelect : List String → List Collection → List Collection
  | [], _ => []
  | i :: is, cs =>
    match cs.find? (fun c => c.id == i) with
    | some c => c :: specSelect is (eraseFirst (fun x => x.id == i) cs)
    | none => specSelect is cs

/-- Formalisation of the specification's wording for the full result of
`reorderCollections(orderedIds)`: the explicitly ordered collections first,
then the remaining collections in their original relative order. -/
def specReorder (ids : List String) (cs : List Collection) : List Collection :=
  specSelect ids cs ++ cs.filter (fun c => !(ids.contains c.id))

/-- Sample custom collection used by concrete witnesses. -/
def wCustomA : Collection := ⟨"alpha", "Alpha", [], some false⟩

/-- Sample custom collection (with one preset) used by concrete witnesses. -/
def wCustomB : Collection :=
  ⟨"beta", "Beta", [seedPreset "p1" "Square" 100 100 5], none⟩

/-- Sample custom collection used by concrete witnesses. -/
def wCustomC : Collection := ⟨"gamma", "Gamma", [], none⟩

/-- Sample snapshot used by concrete witnesses. -/
def wData : PluginData := ⟨[wCustomA, wCustomB, wCustomC], some "alpha", none⟩

/-- Sample incoming preset payload (`clipsContent` explicitly `false`) used
by concrete witnesses. -/
def wRaw : RawPreset :=
  ⟨some "Tall", 50, 60, some false, some 0, none, none, none, none, none,
   none, none, none, none, none, none, none, none, none, none, some false⟩

/-- Sample three-collection snapshot `[a, b, c]` matching the
specification's reordering example. -/
def wOrderData : PluginData :=
  ⟨[⟨"a", "A", [], none⟩, ⟨"b", "B", [], none⟩, ⟨"c", "C", [], none⟩], none, none⟩

theorem hasId_nil (i : String) : hasId [] i = false := rfl

theorem hasId_cons (c : Collection) (l : List Collection) (i : String) :
    hasId (c :: l) i = ((c.id == i) || hasId l i) := rfl

theorem hasId_append (l₁ l₂ : List Collection) (i : String) :
    hasId (l₁ ++ l₂) i = (hasId l₁ i || hasId l₂ i) := by
  simp [hasId, List.any_append]

theorem hasId_updateFirst (p : Collection → Bool) (f : Collection → Collection)
    (h : ∀ x, p x = true → (f x).id = x.id) (l : List Collection) (i : String) :
    hasId (updateFirst p f l) i = hasId l i := by
  induction l with
  | nil => rfl
  | cons x xs ih =>
    cases hx : p x with
    | true => simp [updateFirst, hx, hasId_cons, h x hx]
    | false => simp [updateFirst, hx, hasId_cons, ih]

theorem hasId_eraseFirst_ne (cid i : String) (hne : i ≠ cid) (l : List Collection) :
    hasId (eraseFirst (fun c => c.id == cid) l) i = hasId l i := by
  induction l with
  | nil => rfl
  | cons x xs ih =>
    cases hx : (x.id == cid) with
    | true =>
      have hxid : x.id = cid := eq_of_beq hx
      have hxi : (x.id == i) = false := by
        rw [hxid]
        exact beq_eq_false_iff_ne.mpr (Ne.symm hne)
      simp [eraseFirst, hx, hasId_cons, hxi]
    | false => simp [eraseFirst, hx, hasId_cons, ih]

/-- Claim C10: in `save-multiple-presets`, every stored preset has
`clipsContent` equal to `true`, whatever the incoming `clipsContent` value,
because the stored value is computed as `Boolean(preset.clipsContent || true)`
(line 1240 of `code.ts`). -/
theorem saveMultiple_clipsContent_always_true (now : Int) (index : Nat) (preset : RawPreset) :
    (normalizePreset now index preset).clipsContent = some true := rfl

/-- Claim C7: `syncWithSupabase` returns `false` and neither touches
`lastSyncedAt` nor persists the snapshot whenever the delete or the upsert
step reports an error; it returns `true`, records `lastSyncedAt` and
persists when both succeed; and after a successful delete followed by a
failed upsert the issued remote requests are exactly the delete and the
upsert, with no compensating operation (the embedding is a total function,
mirroring that the `try`/`catch` never lets an exception escape). -/
theorem sync_error_handling (now : Int) (d : PluginData) (derr uerr : Bool) :
    (syncWithSupabase now derr uerr d).ok = (!derr && !uerr) ∧
    (syncWithSupabase now derr uerr d).persisted = (!derr && !uerr) ∧
    (syncWithSupabase now derr uerr d).data =
      (if (!derr && !uerr) then { d with lastSyncedAt := some now } else d) ∧
    (syncWithSupabase now false true d).remoteOps =
      [.deleteWhereIdNotIn BUILT_IN_COLLECTION_IDS,
       .upsertRows (d.collections.map (collectionRow now))] := by
  cases derr <;> cases uerr <;> simp [syncWithSupabase]

/-- Claim C1 (failing evaluation): on the seeded snapshot the built-in
collection ids are `instagram`, `twitter`, `facebook`, `print`, but the
delete filter `BUILT_IN_COLLECTION_IDS` omits `print`, so the delete request
issued by `syncWithSupabase` does target the built-in `print` row — the
id-exclusion filter does not cover every built-in collection id in the
snapshot, contradicting the claim (and the code's own comment that the
filter preserves built-in collections).  The upsert half does cover exactly
one row per collection in the snapshot. -/
theorem sync_delete_targets_builtin_print :
    ((defaultPluginData 0).collections.filter (fun c => c.isBuiltIn.getD false)).map
        (fun c => c.id) = ["instagram", "twitter", "facebook", "print"] ∧
    supabaseDeleteTargets BUILT_IN_COLLECTION_IDS "print" = true ∧
    (syncWithSupabase 0 false false (defaultPluginData 0)).remoteOps =
      [.deleteWhereIdNotIn BUILT_IN_COLLECTION_IDS,
       .upsertRows ((defaultPluginData 0).collections.map (collectionRow 0))] :=
  ⟨rfl, rfl, rfl⟩

/-- Claim C2 (counterexample): starting from a snapshot whose active id
references an existing collection, `set-active-collection` with an id of no
existing collection produces a dangling non-null active id, so the claim as
stated (covering `set-active-collection` with an arbitrary id) is false. -/
theorem setActive_breaks_active_invariant :
    activeOk ⟨[⟨"a", "A", [], none⟩], some "a", none⟩ = true ∧
    activeOk (applyMessage 0 (.setActiveCollection (some "ghost"))
        ⟨[⟨"a", "A", [], none⟩], some "a", none⟩).1 = false :=
  ⟨rfl, rfl⟩

/-- Claim C3: if some existing collection's name equals the requested name
case-insensitively, `create-collection` leaves the snapshot unchanged and
emits the `collection-name-exists` signal; otherwise it appends a new empty
collection with the freshly generated id `collection-${Date.now()}` and
makes it the active collection. -/
theorem createCollection_duplicate_name (now : Int) (d : PluginData) (nm : String) :
    ((∃ c ∈ d.collections, lowerStr c.name = lowerStr nm) →
      handleCreateCollection now nm d = (d, [.postNameExists nm])) ∧
    ((∀ c ∈ d.collections, lowerStr c.name ≠ lowerStr nm) →
      handleCreateCollection now nm d =
        ({ d with
            collections := d.collections ++ [⟨newCollectionId now, nm, [], none⟩],
            activeCollectionId := some (newCollectionId now) },
         [.postUpdate, .notify ("Collection \"" ++ nm ++ "\" created") false])) := by
  constructor
  · intro hdup
    have hb : d.collections.any (fun c => lowerStr c.name == lowerStr nm) = true := by
      rw [List.any_eq_true]
      obtain ⟨c, hc, hcn⟩ := hdup
      exact ⟨c, hc, beq_iff_eq.mpr hcn⟩
    simp [handleCreateCollection, hb]
  · intro hnodup
    have hb : d.collections.any (fun c => lowerStr c.name == lowerStr nm) = false := by
      rw [List.any_eq_false]
      intro c hc
      simpa using hnodup c hc
    simp [handleCreateCollection, hb]

/-- Witness for C3 at concrete inputs: on `wData` (names Alpha, Beta,
Gamma), creating `"ALPHA"` is rejected as a duplicate with the signal, and
creating `"Delta"` appends the fresh collection and activates it. -/
theorem createCollection_duplicate_name_witness :
    handleCreateCollection 7 "ALPHA" wData = (wData, [.postNameExists "ALPHA"]) ∧
    handleCreateCollection 7 "Delta" wData =
      ({ wData with
          collections := wData.collections ++ [⟨newCollectionId 7, "Delta", [], none⟩],
          activeCollectionId := some (newCollectionId 7) },
       [.postUpdate, .notify ("Collection \"" ++ "Delta" ++ "\" created") false]) :=
  ⟨(createCollection_duplicate_name 7 wData "ALPHA").1
      ⟨wCustomA, by simp [wData], by decide⟩,
   (createCollection_duplicate_name 7 wData "Delta").2 (by decide)⟩

theorem find?_updateFirst {α : Type} (p : α → Bool) (f : α → α)
    (hp : ∀ x, p x = true → p (f x) = true) (l : List α) :
    (updateFirst p f l).find? p = (l.find? p).map f := by
  induction l with
  | nil => rfl
  | cons x xs ih =>
    cases hx : p x with
    | true => simp [updateFirst, hx, List.find?, hp x hx]
    | false => simp [updateFirst, hx, List.find?, ih]

theorem updateFirst_updateFirst {α : Type} (p : α → Bool) (f : α → α)
    (hp : ∀ x, p x = true → p (f x) = true) (hf : ∀ x, f (f x) = x) (l : List α) :
    updateFirst p f (updateFirst p f l) = l := by
  induction l with
  | nil => rfl
  | cons x xs ih =>
    cases hx : p x with
    | true => simp [updateFirst, hx, hp x hx, hf x]
    | false => simp [updateFirst, hx, ih]

theorem togglePresetFavorite_involutive (pid : String) (ps : List FramePreset) :
    togglePresetFavorite pid (togglePresetFavorite pid ps) = ps := by
  unfold togglePresetFavorite
  rw [updateFirst_updateFirst]
  · exact fun q h => h
  · intro q
    simp [Bool.not_not]

theorem toggleCollectionPreset_involutive (pid : String) (x : Collection) :
    toggleCollectionPreset pid (toggleCollectionPreset pid x) = x := by
  unfold toggleCollectionPreset
  simp [togglePresetFavorite_involutive]

/-- Claim C8: for a `(collectionId, presetId)` pair identifying an existing
preset, applying `toggle-favorite` twice returns the exact original
snapshot (so the favorite flag is back to its original value and the rest
of the snapshot is unchanged). -/
theorem toggleFavorite_involutive (cid pid : String) (d : PluginData)
    (c : Collection) (p : FramePreset)
    (hc : d.collections.find? (fun x => x.id == cid) = some c)
    (hp : c.presets.find? (fun x => x.id == pid) = some p) :
    (handleToggleFavorite cid pid (handleToggleFavorite cid pid d).1).1 = d := by
  have e1 : (handleToggleFavorite cid pid d).1 =
      { d with collections :=
          updateFirst (fun x => x.id == cid) (toggleCollectionPreset pid) d.collections } := by
    simp [handleToggleFavorite, hc, hp]
  have hc2 : (updateFirst (fun x => x.id == cid) (toggleCollectionPreset pid)
        d.collections).find? (fun x => x.id == cid) =
      some (toggleCollectionPreset pid c) := by
    rw [find?_updateFirst]
    · rw [hc]
      rfl
    · exact fun x hx => hx
  have hp2 : (toggleCollectionPreset pid c).presets.find? (fun x => x.id == pid) =
      some { p with isFavorite := !p.isFavorite } := by
    show (togglePresetFavorite pid c.presets).find? (fun x => x.id == pid) = _
    unfold togglePresetFavorite
    rw [find?_updateFirst]
    · rw [hp]
      rfl
    · exact fun x hx => hx
  rw [e1]
  simp [handleToggleFavorite, hc2, hp2]
  rw [updateFirst_updateFirst]
  · exact fun x hx => hx
  · exact toggleCollectionPreset_involutive pid

/-- Claim C6: a preset-saving request (`save-preset` or
`save-multiple-presets`) whose target collection is built-in leaves the
snapshot unchanged and reports a non-fatal error notification; when the
target collection exists and is not built-in, the preset (respectively the
normalised copies of the non-empty incoming array) are appended to its
preset list. -/
theorem savePreset_builtin_readonly (now : Int) (d : PluginData) (cid : String)
    (c : Collection) (preset : FramePreset) (rawPresets : List RawPreset)
    (hfind : d.collections.find? (fun x => x.id == cid) = some c)
    (hne : rawPresets ≠ []) :
    (c.isBuiltIn.getD false = true →
      handleSavePreset cid preset d =
        (d, [.notify "Cannot add presets to built-in collections" true]) ∧
      handleSaveMultiplePresets now cid (some rawPresets) d =
        (d, [.notify "Cannot add presets to built-in collections" true])) ∧
    (c.isBuiltIn.getD false = false →
      (handleSavePreset cid preset d).1.collections.find? (fun x => x.id == cid) =
        some { c with presets := c.presets ++ [preset] } ∧
      (handleSaveMultiplePresets now cid (some rawPresets) d).1.collections.find?
          (fun x => x.id == cid) =
        some { c with presets :=
          c.presets ++ mapWithIndex (fun i p => normalizePreset now i p) 0 rawPresets }) := by
  constructor
  · intro hb
    constructor
    · simp [handleSavePreset, hfind, hb]
    · simp [handleSaveMultiplePresets, hfind, hb]
  · intro hb
    have hie : rawPresets.isEmpty = false := by
      cases rawPresets
      · exact absurd rfl hne
      · rfl
    constructor
    · simp [handleSavePreset, hfind, hb]
      rw [find?_updateFirst]
      · rw [hfind]
        rfl
      · exact fun x hx => hx
    · simp [handleSaveMultiplePresets, hfind, hb, hie]
      rw [find?_updateFirst]
      · rw [hfind]
        rfl
      · exact fun x hx => hx

/-- Witness for C6 at concrete inputs: saving into the built-in
`instagram` collection of the seeded snapshot changes nothing and notifies
an error for both operations; saving into the custom `beta` collection of
`wData` appends (for `save-multiple-presets`, the normalised copy). -/
theorem savePreset_builtin_readonly_witness :
    (handleSavePreset "instagram" (seedPreset "q" "Q" 1 1 0) (defaultPluginData 0) =
      (defaultPluginData 0, [.notify "Cannot add presets to built-in collections" true]) ∧
     handleSaveMultiplePresets 9 "instagram" (some [wRaw]) (defaultPluginData 0) =
      (defaultPluginData 0, [.notify "Cannot add presets to built-in collections" true])) ∧
    ((handleSavePreset "beta" (seedPreset "q" "Q" 1 1 0) wData).1.collections.find?
        (fun x => x.id == "beta") =
      some { wCustomB with presets := wCustomB.presets ++ [seedPreset "q" "Q" 1 1 0] } ∧
     (handleSaveMultiplePresets 9 "beta" (some [wRaw]) wData).1.collections.find?
        (fun x => x.id == "beta") =
      some { wCustomB with presets :=
        wCustomB.presets ++ mapWithIndex (fun i p => normalizePreset 9 i p) 0 [wRaw] }) :=
  ⟨(savePreset_builtin_readonly 9 (defaultPluginData 0) "instagram" _
      (seedPreset "q" "Q" 1 1 0) [wRaw] rfl (by simp)).1 rfl,
   (savePreset_builtin_readonly 9 wData "beta" wCustomB
      (seedPreset "q" "Q" 1 1 0) [wRaw] rfl (by simp)).2 rfl⟩

/-- Witness for C8 at concrete inputs: toggling the favorite flag of preset
`p1` in collection `beta` twice gives back `wData` exactly. -/
theorem toggleFavorite_involutive_witness :
    (handleToggleFavorite "beta" "p1" (handleToggleFavorite "beta" "p1" wData).1).1 = wData :=
  toggleFavorite_involutive "beta" "p1" wData wCustomB (seedPreset "p1" "Square" 100 100 5)
    rfl rfl

/-- Claim C5: for a collection id present in the snapshot (built-in or
not) and a valid active pointer, `delete-collection` removes that
collection, and the resulting `activeCollectionId` is null or the id of a
collection that still exists; when the deleted collection was the active
one, the pointer moves to the new first collection, or to null when no
collections remain. -/
theorem deleteCollection_active_ok (d : PluginData) (cid : String)
    (hmem : hasId d.collections cid = true) (hok : activeOk d = true) :
    (handleDeleteCollection cid d).1.collections =
      eraseFirst (fun c => c.id == cid) d.collections ∧
    activeOk (handleDeleteCollection cid d).1 = true ∧
    (d.activeCollectionId = some cid →
      (handleDeleteCollection cid d).1.activeCollectionId =
        (match eraseFirst (fun c => c.id == cid) d.collections with
         | [] => none
         | c :: _ => some c.id)) := by
  unfold handleDeleteCollection
  simp only [hmem, if_true]
  refine ⟨trivial, ?_, ?_⟩
  · by_cases ha : d.activeCollectionId = some cid
    · simp only [ha, if_pos]
      cases he : eraseFirst (fun c => c.id == cid) d.collections with
      | nil => simp [activeOk, he]
      | cons c' rest => simp [activeOk, he, hasId_cons]
    · simp only [if_neg ha]
      cases hact : d.activeCollectionId with
      | none => simp [activeOk]
      | some j =>
        have hj : j ≠ cid := by
          intro h
          exact ha (by rw [hact, h])
        unfold activeOk at hok ⊢
        rw [hact] at hok
        simp only []
        rw [hasId_eraseFirst_ne cid j hj]
        exact hok
  · intro ha
    simp [ha]

/-- Witness for C5 at concrete inputs: deleting the active built-in
`instagram` collection of the seeded snapshot removes it and repoints the
active id to the new first collection, `twitter`. -/
theorem deleteCollection_active_ok_witness :
    ((handleDeleteCollection "instagram" (defaultPluginData 0)).1.collections =
      eraseFirst (fun c => c.id == "instagram") (defaultPluginData 0).collections ∧
    activeOk (handleDeleteCollection "instagram" (defaultPluginData 0)).1 = true ∧
    ((defaultPluginData 0).activeCollectionId = some "instagram" →
      (handleDeleteCollection "instagram" (defaultPluginData 0)).1.activeCollectionId =
        (match eraseFirst (fun c => c.id == "instagram") (defaultPluginData 0).collections with
         | [] => none
         | c :: _ => some c.id))) ∧
    (handleDeleteCollection "instagram" (defaultPluginData 0)).1.activeCollectionId =
      some "twitter" :=
  ⟨deleteCollection_active_ok (defaultPluginData 0) "instagram" rfl rfl,
   ((deleteCollection_active_ok (defaultPluginData 0) "instagram" rfl rfl).2.2 rfl).trans rfl⟩

theorem hasId_map_id_preserving (g : Collection → Collection)
    (h : ∀ x, (g x).id = x.id) (l : List Collection) (i : String) :
    hasId (l.map g) i = hasId l i := by
  induction l with
  | nil => rfl
  | cons x xs ih => simp [List.map_cons, hasId_cons, h x, ih]

theorem hasId_mapInsert (m : List Collection) (c : Collection) (i : String) :
    hasId (mapInsert m c) i = (hasId m i || (c.id == i)) := by
  unfold mapInsert
  cases hkey : hasId m c.id with
  | true =>
    simp only [hkey, if_true]
    rw [hasId_map_id_preserving]
    · cases hci : (c.id == i) with
      | false => simp
      | true =>
        have h2 : hasId m i = true := (eq_of_beq hci) ▸ hkey
        simp [h2]
    · intro x
      cases hx : (x.id == c.id) with
      | true =>
        simp only [hx, if_true]
        exact (eq_of_beq hx).symm
      | false => simp [hx]
  | false =>
    simp only [hkey, Bool.false_eq_true, if_false]
    rw [hasId_append, hasId_cons, hasId_nil, Bool.or_false]

theorem hasId_foldl_mapInsert (l acc : List Collection) (i : String) :
    hasId (l.foldl mapInsert acc) i = (hasId acc i || hasId l i) := by
  induction l generalizing acc with
  | nil => simp [hasId_nil]
  | cons c cs ih =>
    rw [List.foldl_cons, ih, hasId_mapInsert, hasId_cons, Bool.or_assoc]

theorem hasId_buildMap (cs : List Collection) (i : String) :
    hasId (buildMap cs) i = hasId cs i := by
  unfold buildMap
  rw [hasId_foldl_mapInsert, hasId_nil, Bool.false_or]

theorem hasId_congr_perm {l₁ l₂ : List Collection} (h : l₁.Perm l₂) (i : String) :
    hasId l₁ i = hasId l₂ i := by
  unfold hasId
  cases hb : l₂.any (fun c => c.id == i) with
  | true =>
    rw [List.any_eq_true] at hb ⊢
    obtain ⟨x, hx, hxi⟩ := hb
    exact ⟨x, h.mem_iff.mpr hx, hxi⟩
  | false =>
    rw [List.any_eq_false] at hb ⊢
    intro x hx
    exact hb x (h.mem_iff.mp hx)

theorem find?_perm_eraseFirst {α : Type} (p : α → Bool) (l : List α) (c : α)
    (h : l.find? p = some c) : l.Perm (c :: eraseFirst p l) := by
  induction l with
  | nil => simp at h
  | cons x xs ih =>
    cases hx : p x with
    | true =>
      rw [List.find?_cons_of_pos xs hx] at h
      have hxc := Option.some.inj h
      subst hxc
      simp [eraseFirst, hx]
    | false =>
      rw [List.find?_cons_of_neg xs (by simp [hx])] at h
      have hperm := ih h
      have he : eraseFirst p (x :: xs) = x :: eraseFirst p xs := by
        simp [eraseFirst, hx]
      rw [he]
      exact (hperm.cons x).trans (List.Perm.swap c x _)

theorem reorderFold_perm (ids : List String) (acc m : List Collection) :
    ((ids.foldl reorderStep (acc, m)).1 ++ (ids.foldl reorderStep (acc, m)).2).Perm
      (acc ++ m) := by
  induction ids generalizing acc m with
  | nil => simp
  | cons i is ih =>
    rw [List.foldl_cons]
    cases hf : m.find? (fun c => c.id == i) with
    | none =>
      have hstep : reorderStep (acc, m) i = (acc, m) := by
        simp [reorderStep, hf]
      rw [hstep]
      exact ih acc m
    | some c =>
      have hstep : reorderStep (acc, m) i =
          (acc ++ [c], eraseFirst (fun x => x.id == i) m) := by
        simp [reorderStep, hf]
      rw [hstep]
      refine (ih _ _).trans ?_
      have h3 : ((acc ++ [c]) ++ eraseFirst (fun x => x.id == i) m) =
          acc ++ (c :: eraseFirst (fun x => x.id == i) m) := by simp
      rw [h3]
      exact List.Perm.append_left acc (find?_perm_eraseFirst _ m c hf).symm

theorem foldl_mapInsert_of_disjoint (cs : List Collection) :
    ∀ acc, (cs.map (fun c => c.id)).Nodup →
      (∀ c ∈ cs, hasId acc c.id = false) →
      cs.foldl mapInsert acc = acc ++ cs := by
  induction cs with
  | nil =>
    intro acc _ _
    simp
  | cons c cs' ih =>
    intro acc hnd hdisj
    rw [List.foldl_cons]
    have hc : hasId acc c.id = false := hdisj c (List.mem_cons_self c cs')
    have h1 : mapInsert acc c = acc ++ [c] := by
      unfold mapInsert
      simp [hc]
    rw [h1]
    rw [List.map_cons, List.nodup_cons] at hnd
    have hdisj' : ∀ x ∈ cs', hasId (acc ++ [c]) x.id = false := by
      intro x hx
      rw [hasId_append, hasId_cons, hasId_nil]
      have hxne : (c.id == x.id) = false := by
        rw [beq_eq_false_iff_ne]
        intro he
        exact hnd.1 (by rw [he]; exact List.mem_map_of_mem _ hx)
      rw [hdisj x (List.mem_cons_of_mem c hx), hxne]
      rfl
    rw [ih (acc ++ [c]) hnd.2 hdisj']
    simp

theorem buildMap_eq_self (cs : List Collection)
    (hnd : (cs.map (fun c => c.id)).Nodup) : buildMap cs = cs := by
  unfold buildMap
  rw [foldl_mapInsert_of_disjoint cs [] hnd (fun c _ => rfl)]
  rfl

theorem eraseFirst_eq_filter (i : String) (l : List Collection)
    (hnd : (l.map (fun c => c.id)).Nodup) :
    eraseFirst (fun c => c.id == i) l = l.filter (fun c => !(c.id == i)) := by
  induction l with
  | nil => rfl
  | cons x xs ih =>
    rw [List.map_cons, List.nodup_cons] at hnd
    cases hx : (x.id == i) with
    | true =>
      have hxi : x.id = i := eq_of_beq hx
      have hall : ∀ c ∈ xs, (c.id == i) = false := by
        intro c hc
        rw [beq_eq_false_iff_ne]
        intro he
        exact hnd.1 (by rw [hxi, ← he]; exact List.mem_map_of_mem _ hc)
      have hfil : xs.filter (fun c => !(c.id == i)) = xs :=
        List.filter_eq_self.mpr (fun c hc => by rw [hall c hc]; rfl)
      simp [eraseFirst, hx, List.filter_cons, hfil]
    | false =>
      simp [eraseFirst, hx, List.filter_cons, ih hnd.2]

theorem reorderFold_eq (ids : List String) :
    ∀ acc m, (m.map (fun c => c.id)).Nodup →
      ids.foldl reorderStep (acc, m) =
        (acc ++ specSelect ids m, m.filter (fun c => !(ids.contains c.id))) := by
  induction ids with
  | nil =>
    intro acc m _
    simp [specSelect, List.contains_nil]
  | cons i is ih =>
    intro acc m hnd
    rw [List.foldl_cons]
    cases hf : m.find? (fun c => c.id == i) with
    | none =>
      have hstep : reorderStep (acc, m) i = (acc, m) := by
        simp [reorderStep, hf]
      rw [hstep, ih acc m hnd]
      have hnone : ∀ c ∈ m, (c.id == i) = false := by
        intro c hc
        cases hq : (c.id == i) with
        | false => rfl
        | true => exact absurd hq (List.find?_eq_none.mp hf c hc)
      refine Prod.ext ?_ ?_
      · show acc ++ specSelect is m = acc ++ specSelect (i :: is) m
        simp [specSelect, hf]
      · show m.filter (fun c => !(is.contains c.id)) =
          m.filter (fun c => !((i :: is).contains c.id))
        refine List.filter_congr ?_
        intro c hc
        rw [List.contains_cons, hnone c hc]
        rfl
    | some c =>
      have hstep : reorderStep (acc, m) i =
          (acc ++ [c], eraseFirst (fun x => x.id == i) m) := by
        simp [reorderStep, hf]
      rw [hstep]
      have hsub : ((eraseFirst (fun x => x.id == i) m).map (fun c => c.id)).Nodup := by
        rw [eraseFirst_eq_filter i m hnd]
        exact List.Nodup.sublist
          (List.Sublist.map (fun c => c.id) (List.filter_sublist m)) hnd
      rw [ih (acc ++ [c]) _ hsub]
      refine Prod.ext ?_ ?_
      · show (acc ++ [c]) ++ specSelect is (eraseFirst (fun x => x.id == i) m) =
          acc ++ specSelect (i :: is) m
        rw [List.append_assoc]
        simp [specSelect, hf]
      · show (eraseFirst (fun x => x.id == i) m).filter (fun c => !(is.contains c.id)) =
          m.filter (fun c => !((i :: is).contains c.id))
        rw [eraseFirst_eq_filter i m hnd, List.filter_filter]
        refine List.filter_congr ?_
        intro a _
        rw [List.contains_cons, Bool.not_or]
        exact Bool.and_comm _ _

/-- Claim C4: `reorder-collections` with a missing/non-array or empty
`collectionIds` leaves the snapshot unchanged; with a non-empty list (on a
snapshot with distinct collection ids, the §3 invariant) the resulting
collections list is the collections whose ids appear in `orderedIds`, in
that order, followed by the remaining collections in their original
relative order; the active pointer is untouched. -/
theorem reorder_matches_spec (d : PluginData) (ids : List String)
    (hnd : (d.collections.map (fun c => c.id)).Nodup) (hne : ids ≠ []) :
    (handleReorderCollections none d).1 = d ∧
    (handleReorderCollections (some []) d).1 = d ∧
    (handleReorderCollections (some ids) d).1.collections =
      specReorder ids d.collections ∧
    (handleReorderCollections (some ids) d).1.activeCollectionId =
      d.activeCollectionId := by
  have hie : ids.isEmpty = false := List.isEmpty_eq_false.mpr hne
  have hred : (handleReorderCollections (some ids) d).1 =
      { d with collections := reorderCore ids d.collections } := by
    simp [handleReorderCollections, hie]
  refine ⟨rfl, rfl, ?_, ?_⟩
  · rw [hred]
    show reorderCore ids d.collections = specReorder ids d.collections
    show (ids.foldl reorderStep ([], buildMap d.collections)).1 ++
      (ids.foldl reorderStep ([], buildMap d.collections)).2 = specReorder ids d.collections
    rw [buildMap_eq_self d.collections hnd,
        reorderFold_eq ids [] d.collections hnd]
    simp [specReorder]
  · rw [hred]

/-- Witness for C4 at the specification's own example: reordering the
snapshot `[a, b, c]` by `["b", "a"]` matches the spec-side description,
which there evaluates to `[b, a, c]`. -/
theorem reorder_matches_spec_witness :
    ((handleReorderCollections none wOrderData).1 = wOrderData ∧
     (handleReorderCollections (some []) wOrderData).1 = wOrderData ∧
     (handleReorderCollections (some ["b", "a"]) wOrderData).1.collections =
       specReorder ["b", "a"] wOrderData.collections ∧
     (handleReorderCollections (some ["b", "a"]) wOrderData).1.activeCollectionId =
       wOrderData.activeCollectionId) ∧
    specReorder ["b", "a"] wOrderData.collections =
      [⟨"b", "B", [], none⟩, ⟨"a", "A", [], none⟩, ⟨"c", "C", [], none⟩] :=
  ⟨reorder_matches_spec wOrderData ["b", "a"] (by decide) (by decide), rfl⟩

/-- Claim C9: for every snapshot with distinct collection ids (the §3
invariant) and every non-empty id list — duplicates and unknown ids
included — `reorder-collections` produces a permutation of the original
collections list: nothing is dropped, nothing is duplicated. -/
theorem reorder_perm (d : PluginData) (ids : List String)
    (hnd : (d.collections.map (fun c => c.id)).Nodup) (hne : ids ≠ []) :
    ((handleReorderCollections (some ids) d).1.collections).Perm d.collections := by
  have hie : ids.isEmpty = false := List.isEmpty_eq_false.mpr hne
  have hred : (handleReorderCollections (some ids) d).1 =
      { d with collections := reorderCore ids d.collections } := by
    simp [handleReorderCollections, hie]
  rw [hred]
  show ((ids.foldl reorderStep ([], buildMap d.collections)).1 ++
    (ids.foldl reorderStep ([], buildMap d.collections)).2).Perm d.collections
  rw [buildMap_eq_self d.collections hnd]
  simpa using reorderFold_perm ids [] d.collections

/-- Witness for C9 at concrete inputs: reordering `[a, b, c]` by the list
`["c", "zzz", "c", "a"]` (an unknown id and a duplicate included) yields a
permutation of the original collections. -/
theorem reorder_perm_witness :
    ((handleReorderCollections (some ["c", "zzz", "c", "a"]) wOrderData).1.collections).Perm
      wOrderData.collections :=
  reorder_perm wOrderData ["c", "zzz", "c", "a"] (by decide) (by decide)

theorem activeOk_of (d d' : PluginData)
    (hact : d'.activeCollectionId = d.activeCollectionId)
    (hids : ∀ i, hasId d.collections i = true → hasId d'.collections i = true)
    (h1 : activeOk d = true) : activeOk d' = true := by
  unfold activeOk at h1 ⊢
  rw [hact]
  cases hai : d.activeCollectionId with
  | none => rfl
  | some i =>
    rw [hai] at h1
    exact hids i h1

theorem activeOk_updateFirst (d : PluginData) (p : Collection → Bool)
    (f : Collection → Collection) (hid : ∀ x, p x = true → (f x).id = x.id)
    (h1 : activeOk d = true) :
    activeOk { d with collections := updateFirst p f d.collections } = true := by
  refine activeOk_of d _ rfl ?_ h1
  intro i hi
  rw [hasId_updateFirst p f hid]
  exact hi

/-- Claim C2 (amended): starting from a snapshot whose non-null active id
references an existing collection, every message-handler operation other
than `set-active-collection` yields a snapshot whose `activeCollectionId`
is null or references an existing collection; `set-active-collection`
stores the given id unconditionally and therefore preserves the invariant
exactly when the given id is null or the id of an existing collection
(`msgKeepsActive`). -/
theorem messages_preserve_active (now : Int) (m : Msg) (d : PluginData)
    (h1 : activeOk d = true) (h2 : msgKeepsActive m d = true) :
    activeOk (applyMessage now m d).1 = true := by
  cases m with
  | savePreset cid preset =>
    show activeOk (handleSavePreset cid preset d).1 = true
    cases hf : d.collections.find? (fun c => c.id == cid) with
    | none => simpa [handleSavePreset, hf] using h1
    | some c =>
      cases hbb : c.isBuiltIn.getD false with
      | true => simpa [handleSavePreset, hf, hbb] using h1
      | false =>
        have e : (handleSavePreset cid preset d).1 =
            { d with collections :=
                (updateFirst (fun x => x.id == cid)
                  (fun x => { x with presets := x.presets ++ [preset] })
                  d.collections) } := by
          simp [handleSavePreset, hf, hbb]
        rw [e]
        exact activeOk_updateFirst d _ _ (fun x _ => rfl) h1
  | saveMultiplePresets cid presets =>
    show activeOk (handleSaveMultiplePresets now cid presets d).1 = true
    cases hf : d.collections.find? (fun c => c.id == cid) with
    | none => simpa [handleSaveMultiplePresets, hf] using h1
    | some c =>
      cases hbb : c.isBuiltIn.getD false with
      | true => simpa [handleSaveMultiplePresets, hf, hbb] using h1
      | false =>
        cases presets with
        | none => simpa [handleSaveMultiplePresets, hf, hbb] using h1
        | some ps =>
          cases hie : ps.isEmpty with
          | true => simpa [handleSaveMultiplePresets, hf, hbb, hie] using h1
          | false =>
            have e : (handleSaveMultiplePresets now cid (some ps) d).1 =
                { d with collections :=
                    (updateFirst (fun x => x.id == cid)
                      (fun x => { x with presets :=
                        x.presets ++ mapWithIndex (fun i p => normalizePreset now i p) 0 ps })
                      d.collections) } := by
              simp [handleSaveMultiplePresets, hf, hbb, hie]
            rw [e]
            exact activeOk_updateFirst d _ _ (fun x _ => rfl) h1
  | toggleFavorite cid pid =>
    show activeOk (handleToggleFavorite cid pid d).1 = true
    cases hf : d.collections.find? (fun c => c.id == cid) with
    | none => simpa [handleToggleFavorite, hf] using h1
    | some c =>
      cases hp : c.presets.find? (fun p => p.id == pid) with
      | none => simpa [handleToggleFavorite, hf, hp] using h1
      | some p =>
        have e : (handleToggleFavorite cid pid d).1 =
            { d with collections :=
                (updateFirst (fun x => x.id == cid) (toggleCollectionPreset pid)
                  d.collections) } := by
          simp [handleToggleFavorite, hf, hp]
        rw [e]
        exact activeOk_updateFirst d _ _ (fun x _ => rfl) h1
  | setActiveCollection cid =>
    cases cid with
    | none => rfl
    | some j => exact h2
  | createCollection nm =>
    show activeOk (handleCreateCollection now nm d).1 = true
    cases hdup : d.collections.any (fun c => lowerStr c.name == lowerStr nm) with
    | true => simpa [handleCreateCollection, hdup] using h1
    | false =>
      have e : (handleCreateCollection now nm d).1 =
          { d with
              collections := d.collections ++ [⟨newCollectionId now, nm, [], none⟩],
              activeCollectionId := some (newCollectionId now) } := by
        simp [handleCreateCollection, hdup]
      rw [e]
      show hasId (d.collections ++ [⟨newCollectionId now, nm, [], none⟩])
        (newCollectionId now) = true
      rw [hasId_append, hasId_cons, hasId_nil, beq_self_eq_true]
      simp
  | deleteCollection cid =>
    show activeOk (handleDeleteCollection cid d).1 = true
    cases hmem : hasId d.collections cid with
    | false => simpa [handleDeleteCollection, hmem] using h1
    | true =>
      unfold handleDeleteCollection
      simp only [hmem, if_true]
      by_cases ha : d.activeCollectionId = some cid
      · simp only [ha, if_pos]
        cases he : eraseFirst (fun c => c.id == cid) d.collections with
        | nil => simp [activeOk, he]
        | cons c' rest => simp [activeOk, he, hasId_cons]
      · simp only [if_neg ha]
        cases hact : d.activeCollectionId with
        | none => simp [activeOk]
        | some j =>
          have hj : j ≠ cid := by
            intro h
            exact ha (by rw [hact, h])
          unfold activeOk at h1 ⊢
          rw [hact] at h1
          simp only []
          rw [hasId_eraseFirst_ne cid j hj]
          exact h1
  | deletePreset cid pid =>
    show activeOk (handleDeletePreset cid pid d).1 = true
    cases hf : d.collections.find? (fun c => c.id == cid) with
    | none => simpa [handleDeletePreset, hf] using h1
    | some c =>
      cases hbb : c.isBuiltIn.getD false with
      | true => simpa [handleDeletePreset, hf, hbb] using h1
      | false =>
        have e : (handleDeletePreset cid pid d).1 =
            { d with collections :=
                (updateFirst (fun x => x.id == cid)
                  (fun x => { x with presets := x.presets.filter (fun p => !(p.id == pid)) })
                  d.collections) } := by
          simp [handleDeletePreset, hf, hbb]
        rw [e]
        exact activeOk_updateFirst d _ _ (fun x _ => rfl) h1
  | reorderCollections ids? =>
    show activeOk (handleReorderCollections ids? d).1 = true
    cases ids? with
    | none => exact h1
    | some ids =>
      cases hie : ids.isEmpty with
      | true => simpa [handleReorderCollections, hie] using h1
      | false =>
        have e : (handleReorderCollections (some ids) d).1 =
            { d with collections := reorderCore ids d.collections } := by
          simp [handleReorderCollections, hie]
        rw [e]
        refine activeOk_of d _ rfl ?_ h1
        intro i hi
        show hasId ((ids.foldl reorderStep ([], buildMap d.collections)).1 ++
          (ids.foldl reorderStep ([], buildMap d.collections)).2) i = true
        rw [hasId_congr_perm (reorderFold_perm ids [] (buildMap d.collections)),
            List.nil_append, hasId_buildMap]
        exact hi
  | saveImportedCollection c =>
    show activeOk (handleSaveImportedCollection c d).1 = true
    cases hmem : hasId d.collections c.id with
    | true =>
      have e : (handleSaveImportedCollection c d).1 =
          { d with collections :=
              (updateFirst (fun x => x.id == c.id) (fun _ => c) d.collections) } := by
        simp [handleSaveImportedCollection, hmem]
      rw [e]
      exact activeOk_updateFirst d _ _ (fun x hx => (eq_of_beq hx).symm) h1
    | false =>
      have e : (handleSaveImportedCollection c d).1 =
          { d with collections := d.collections ++ [c] } := by
        simp [handleSaveImportedCollection, hmem]
      rw [e]
      refine activeOk_of d _ rfl ?_ h1
      intro i hi
      rw [hasId_append, hi]
      rfl
  | syncToSupabase derr uerr =>
    cases derr with
    | true => exact h1
    | false =>
      cases uerr with
      | true => exact h1
      | false => exact h1
  | passive => exact h1

/-- Witness for the amended C2 at concrete inputs: deleting the active
collection `alpha` of `wData` preserves the active-id invariant. -/
theorem messages_preserve_active_witness :
    activeOk (applyMessage 0 (.deleteCollection "alpha") wData).1 = true :=
  messages_preserve_active 0 (.deleteCollection "alpha") wData rfl rfl

end SaveFrame
